import Mathlib

set_option autoImplicit false

namespace DocuMind

/-- Last `n` elements of a list, the semantics of JavaScript `array.slice(-n)`
for `n > 0`. -/
def lastN {α : Type} (n : Nat) (l : List α) : List α :=
  l.drop (l.length - n)

/-- Worker of `dedupFirst`: keeps the first occurrence of every element not
yet seen. -/
def dedupFirstAux (seen : List String) : List String → List String
  | [] => []
  | x :: xs =>
    if seen.contains x then dedupFirstAux seen xs
    else x :: dedupFirstAux (x :: seen) xs

/-- First-occurrence deduplication, the semantics of JavaScript
`Array.from(new Set(xs))`, which keeps insertion order. -/
def dedupFirst (l : List String) : List String :=
  dedupFirstAux [] l

/-- Whether `sub` occurs contiguously inside `l`. -/
def listHasSub (sub l : List Char) : Bool :=
  l.tails.any (fun t => sub.isPrefixOf t)

/-- The semantics of JavaScript `s.includes(sub)`. -/
def strHasSub (s sub : String) : Bool :=
  listHasSub sub.data s.data

/-- The semantics of JavaScript `s.trim()`: strip leading and trailing
whitespace. -/
def jsTrim (s : String) : String :=
  String.mk (((s.data.dropWhile Char.isWhitespace).reverse.dropWhile
    Char.isWhitespace).reverse)

/-- Worker of `jsReplace`: replace the first occurrence of `pat`. -/
def replaceFirstAux (pat rep : List Char) : List Char → List Char
  | [] => []
  | c :: rest =>
    if pat.isPrefixOf (c :: rest) then rep ++ (c :: rest).drop pat.length
    else c :: replaceFirstAux pat rep rest

/-- The semantics of JavaScript `s.replace(pat, rep)` with a string
pattern: replace the first occurrence only. -/
def jsReplace (s pat rep : String) : String :=
  String.mk (replaceFirstAux pat.data rep.data s.data)

/-- Shape of an HTTP error response attached to a thrown JavaScript error
(`err.response` in the source). The three optional message fields model the
fallback chain `data?.error?.message || data?.message || statusText`. -/
structure JsResponse where
  status : Nat
  dataErrorMessage : Option String := none
  dataMessage : Option String := none
  statusText : Option String := none
deriving Repr, DecidableEq

/-- Model of a thrown JavaScript `Error` as the source inspects it: a
message, an optional `code` and an optional HTTP `response`. -/
structure JsError where
  message : String
  code : Option String := none
  response : Option JsResponse := none
deriving Repr, DecidableEq

/-- One element of a segmented LLM response content array: either a plain
string or an object with an optional `text` field. -/
inductive LLMPart where
  | strPart (s : String)
  | objPart (text : Option String)
deriving Repr, DecidableEq

/-- LLM response `content`, either a scalar string or a list of parts. -/
inductive LLMContent where
  | str (s : String)
  | parts (ps : List LLMPart)
deriving Repr, DecidableEq

/-- The per-part normalization in the source,
`(c) => (typeof c === "string" ? c : c?.text || "")`. An object part with
`text` equal to the empty string also yields the empty string, so `getD`
matches the JavaScript `||` here. -/
def LLMPart.toText : LLMPart → String
  | .strPart s => s
  | .objPart t => t.getD ("")

/-- The normalization applied by the source to multi-shape LLM content:
`Array.isArray(content) ? content.map(...).join("") : content as string`. -/
def LLMContent.toText : LLMContent → String
  | .str s => s
  | .parts ps => String.join (ps.map LLMPart.toText)

namespace DocumentProcessor

/-- Chunk size configured in the `DocumentProcessor` constructor
(`chunkSize: 800`). -/
def chunkSize : Nat := 800

/-- Chunk overlap configured in the `DocumentProcessor` constructor
(`chunkOverlap: 150`). -/
def chunkOverlap : Nat := 150

/-- Modelled from the spec: the repository delegates chunking to LangChain
(`RecursiveCharacterTextSplitter`), whose implementation is not part of this
repository; `src` only configures it (chunk size 800, overlap 150, a
priority-ordered separator list) and calls `splitText`. Following the spec,
the splitter cuts the text into ordered chunks of at most `chunkSize`
characters, preferring semantically meaningful boundaries, with each chunk
after the first starting exactly `overlap` characters before the previous
end of the previous chunk. The boundary preference (the separator priority list) is
abstracted by `cut`, which proposes a cut length for the current window;
the proposal is clamped to `[overlap + 1, chunkSize]` so chunks stay
size-bounded and the split makes progress. -/
def splitTextSpec (chunkSize overlap : Nat) (cut : List Char → Nat) (text : List Char) :
    List (List Char) :=
  if h : text.length ≤ chunkSize ∨ chunkSize ≤ overlap then [text]
  else
    let c := min chunkSize (max (cut text) (overlap + 1))
    text.take c :: splitTextSpec chunkSize overlap cut (text.drop (c - overlap))
termination_by text.length
decreasing_by
  push_neg at h
  have hc : overlap + 1 ≤ min chunkSize (max (cut text) (overlap + 1)) :=
    le_min (by omega) (le_max_right _ _)
  simp only [List.length_drop]
  omega

/-- Concatenation of chunks after removing the configured overlap length
from each chunk after the first. -/
def reassembleChunks (overlap : Nat) : List (List Char) → List Char
  | [] => []
  | c :: cs => c ++ (cs.map (List.drop overlap)).flatten

/-- Embedding of `DocumentProcessor.generateSummary`. The language model is
abstracted as a function from the user prompt to either a completion text
or a thrown error; the input is truncated to 2000 characters before being
sent and on any error the code falls back to
`content.substring(0, 200) + "..."`. -/
def generateSummary (llm : String → Except JsError String) (content : String) : String :=
  let limitedContent := content.take 2000
  match llm ("Summarize: " ++ limitedContent) with
  | .ok s => s
  | .error _ => content.take 200 ++ "..."

/-- Matches one alternative of the regex group
`((youtu.be\/)|(v\/)|(\/u\/\w\/)|(embed\/)|(watch\?))` at the head of `s`,
returning the remaining characters. The sixth character of the first
alternative is the regex wildcard `.` of `youtu.be`. The five alternatives
start with pairwise distinct characters, so at most one can match at a
given position and the in-order matching below is exact. -/
def matchUrlMarker : List Char → Option (List Char)
  | 'y' :: 'o' :: 'u' :: 't' :: 'u' :: _ :: 'b' :: 'e' :: '/' :: rest => some rest
  | 'v' :: '/' :: rest => some rest
  | '/' :: 'u' :: '/' :: c :: '/' :: rest =>
    if c.isAlphanum || c == '_' then some rest else none
  | 'e' :: 'm' :: 'b' :: 'e' :: 'd' :: '/' :: rest => some rest
  | 'w' :: 'a' :: 't' :: 'c' :: 'h' :: '?' :: rest => some rest
  | _ => none

/-- The greedy leading `^.*` of the id-extraction regex: the alternation
group is taken at the rightmost position where it matches (everything after
the group is optional or a star, so the whole pattern matches from any such
position). Returns the characters following the matched alternative, or
`none` when no position matches, in which case `url.match` is `null`. -/
def restAfterLastMarker : List Char → Option (List Char)
  | [] => none
  | c :: rest =>
    match restAfterLastMarker rest with
    | some r => some r
    | none => matchUrlMarker (c :: rest)

/-- Consumes the optional `\??v?=?` after the alternation (each greedy, and
nothing later can force backtracking) and captures group 7, `([^#&?]*)`. -/
def captureVideoId (s : List Char) : List Char :=
  let s1 := match s with
    | '?' :: t => t
    | _ => s
  let s2 := match s1 with
    | 'v' :: t => t
    | _ => s1
  let s3 := match s2 with
    | '=' :: t => t
    | _ => s2
  s3.takeWhile (fun c => c != '#' && c != '&' && c != '?')

/-- Embedding of `DocumentProcessor.extractYouTubeVideoId`:
`url.match(regExp)` followed by
`match && match[7].length === 11 ? match[7] : null`. -/
def extractYouTubeVideoId (url : String) : Option String :=
  match restAfterLastMarker url.data with
  | none => none
  | some rest =>
    let vid := captureVideoId rest
    if vid.length = 11 then some (String.mk vid) else none

/-- Transcript and metadata of the first document returned by the LangChain
`YoutubeLoader`. -/
structure YTLoaded where
  pageContent : String
  title : Option String := none
  author : Option String := none
  length : Option Nat := none
  description : Option String := none
  source : Option String := none
deriving Repr, DecidableEq

/-- Page title and meta description scraped by the YouTube fallback path
(`axios.get` + cheerio; the empty-string default on the description is folded in). -/
structure YTPage where
  pageTitle : String
  metaDescription : String
deriving Repr, DecidableEq

/-- Result shape of `DocumentProcessor.processContent`, together with the
two metadata flags the YouTube paths set. -/
structure ProcessedDocM where
  title : String
  content : String
  summary : String
  chunks : List (List Char)
  hasTranscript : Bool
  fallbackContent : Bool
deriving Repr, DecidableEq

/-- JavaScript truthiness of an optional string (`undefined` and `""` are
falsy). -/
def optTruthyStr : Option String → Bool
  | some s => s != ""
  | none => false

/-- JavaScript truthiness of an optional number (`undefined` and `0` are
falsy). -/
def optTruthyNat : Option Nat → Bool
  | some n => n != 0
  | none => false

/-- JavaScript `a || b` for an optional string `a` and a string `b`. -/
def orStr (o : Option String) (d : String) : String :=
  match o with
  | some s => if s == "" then d else s
  | none => d

/-- Embedding of `DocumentProcessor.formatDuration`. -/
def formatDuration (durationSeconds : Nat) : String :=
  let hours := durationSeconds / 3600
  let minutes := durationSeconds % 3600 / 60
  let seconds := durationSeconds % 60
  if hours > 0 then
    toString hours ++ "h " ++ toString minutes ++ "m " ++ toString seconds ++ "s"
  else if minutes > 0 then
    toString minutes ++ "m " ++ toString seconds ++ "s"
  else
    toString seconds ++ "s"

/-- Embedding of `DocumentProcessor.processContent`: generate a summary,
split the content into chunks (spec-modelled splitter, see `splitTextSpec`)
and truncate the title to 500 characters. The two metadata flags of
interest to the YouTube paths are threaded through. -/
def processContentM (llm : String → Except JsError String) (cut : List Char → Nat)
    (content title : String) (hasTranscript fallbackContent : Bool) : ProcessedDocM :=
  { title := title.take 500
    content := content
    summary := generateSummary llm content
    chunks := splitTextSpec chunkSize chunkOverlap cut content.data
    hasTranscript := hasTranscript
    fallbackContent := fallbackContent }

/-- The note appended to the degraded document built by the YouTube
fallback path. -/
def transcriptUnavailableNote : String :=
  "\n\nNote: Transcript could not be loaded for this video. This may be due to privacy settings, unavailable captions, or other restrictions."

/-- Embedding of `DocumentProcessor.processYouTubeURL`. The two network
calls are oracles: `loader` for `YoutubeLoader.load()` (the list of loaded
documents) and `fetchPage` for the `axios.get` + cheerio scrape of the
fallback path; `llm` and `cut` are threaded to `processContentM`. The
primary path throws on a missing video id, a loader failure or an empty
document list; the catch block then builds a degraded document from the
fetched page, and only when that fetch also fails does the whole call throw
`Failed to process YouTube video: <original message>`. -/
def processYouTubeURL (loader : Except JsError (List YTLoaded))
    (fetchPage : Except JsError YTPage) (llm : String → Except JsError String)
    (cut : List Char → Nat) (url : String) : Except String ProcessedDocM :=
  let primary : Except JsError ProcessedDocM :=
    match extractYouTubeVideoId url with
    | none => .error { message := "Invalid YouTube URL" }
    | some videoId =>
      match loader with
      | .error e => .error e
      | .ok [] => .error { message := "No content could be loaded from the YouTube video" }
      | .ok (doc :: _) =>
        let title := orStr doc.title (orStr doc.source ("YouTube Video (" ++ videoId ++ ")"))
        let c1 := if optTruthyStr doc.title then "Title: " ++ doc.title.getD ("") ++ "\n" else ""
        let c2 := if optTruthyStr doc.author then "Channel: " ++ doc.author.getD ("") ++ "\n" else ""
        let c3 := if optTruthyNat doc.length then "Duration: " ++ formatDuration (doc.length.getD 0) ++ "\n" else ""
        let c4 := if optTruthyStr doc.description then "Description: " ++ doc.description.getD ("") ++ "\n" else ""
        let content := c1 ++ c2 ++ c3 ++ c4 ++ "\nTranscript:\n" ++ doc.pageContent
        let hasTr := doc.pageContent != "" && jsTrim doc.pageContent != ""
        .ok (processContentM llm cut content title hasTr false)
  match primary with
  | .ok d => .ok d
  | .error e =>
    match fetchPage with
    | .error _ => .error ("Failed to process YouTube video: " ++ e.message)
    | .ok page =>
      let videoIdStr := match extractYouTubeVideoId url with
        | some v => v
        | none => "null"
      let title :=
        if page.pageTitle != "" && page.pageTitle != "YouTube" then
          jsReplace page.pageTitle (" - YouTube") ("")
        else "YouTube Video (" ++ videoIdStr ++ ")"
      let fallbackBody :=
        "Title: " ++ title ++ "\nDescription: " ++ page.metaDescription ++ transcriptUnavailableNote
      .ok (processContentM llm cut fallbackBody title false true)

end DocumentProcessor

namespace VectorService

/-- A stored vector point as the search and delete paths see it. Qdrant
returns search results ranked by descending similarity score; the ranking
is represented by list order, which also sidesteps floating-point score
ties (the claims compare results only up to ranking ties). -/
structure QPoint where
  id : String
  documentId : String
  content : String
deriving Repr, DecidableEq

/-- The error message Qdrant produces when a payload filter is used on a
collection without the corresponding payload index; the source detects it
with a check that the message includes the text Index required. -/
def indexRequiredMessage : String :=
  "Index required but not found for documentId"

/-- Server-side similarity search over a collection whose points are listed
in ranked (descending-score) order: optionally filter by a `documentId`
set, then return the first `limit` points. A filtered request against a
collection lacking the `documentId` payload index is rejected with an
"Index required" error. -/
def qdrantSearch (hasIndex : Bool) (ranked : List QPoint) (limit : Nat)
    (filterIds : Option (List String)) : Except JsError (List QPoint) :=
  match filterIds with
  | none => .ok (ranked.take limit)
  | some ids =>
    if hasIndex then .ok ((ranked.filter (fun p => ids.contains p.documentId)).take limit)
    else .error { message := indexRequiredMessage }

/-- The error re-classification in the catch block of
`VectorService.searchSimilar`. -/
def searchErrorMessage (e : JsError) : String :=
  if strHasSub e.message ("timeout") || e.code == some ("ECONNABORTED") then
    "Vector search timeout - please try again"
  else if strHasSub e.message ("API key") then
    "OpenAI API key error during vector search"
  else if strHasSub e.message ("rate limit") then
    "Rate limit exceeded - please wait and try again"
  else e.message

/-- Embedding of `VectorService.searchSimilar` (the variant with the
index-missing fallback): run a filtered search; if it fails with an
"Index required" error, fetch `limit * 3` unfiltered candidates
(`limit` when no document filter was requested), filter client-side by
`documentId` membership and truncate to `limit`. -/
def searchSimilar (hasIndex : Bool) (ranked : List QPoint) (limit : Nat)
    (documentIds : List String) : Except String (List QPoint) :=
  let filterIds := if documentIds.isEmpty then none else some documentIds
  match qdrantSearch hasIndex ranked limit filterIds with
  | .ok r => .ok r
  | .error e =>
    if strHasSub e.message ("Index required") then
      let fallbackLimit := if documentIds.isEmpty then limit else limit * 3
      match qdrantSearch hasIndex ranked fallbackLimit none with
      | .ok res =>
        if documentIds.isEmpty then .ok res
        else .ok ((res.filter (fun p => documentIds.contains p.documentId)).take limit)
      | .error e2 => .error (searchErrorMessage e2)
    else .error (searchErrorMessage e)

/-- Server-side delete by `documentId` filter; like filtered search it
requires the payload index. Deleting zero matching points is not an
error. -/
def qdrantDeleteByFilter (hasIndex : Bool) (docId : String) (store : List QPoint) :
    Except JsError (List QPoint) :=
  if hasIndex then .ok (store.filter (fun p => p.documentId != docId))
  else .error { message := indexRequiredMessage }

/-- Server-side delete by explicit point ids. -/
def qdrantDeletePoints (ids : List String) (store : List QPoint) : List QPoint :=
  store.filter (fun p => !(ids.contains p.id))

/-- Server-side scroll: the first `limit` points of the collection in
storage order (modelled as the same list order as search ranking). -/
def qdrantScroll (limit : Nat) (store : List QPoint) : List QPoint :=
  store.take limit

/-- Embedding of `VectorService.deleteByDocumentId` (the variant with the
index-missing fallback): run a filtered delete; on an "Index required"
error, scroll a single batch of 1000 points, filter client-side by
`documentId` and delete the matching ids, skipping the delete call when
nothing matched. Returns the resulting collection contents. -/
def deleteByDocumentId (hasIndex : Bool) (docId : String) (store : List QPoint) :
    Except String (List QPoint) :=
  match qdrantDeleteByFilter hasIndex docId store with
  | .ok s => .ok s
  | .error e =>
    if strHasSub e.message ("Index required") then
      let pointsToDelete :=
        ((qdrantScroll 1000 store).filter (fun p => p.documentId == docId)).map (fun p => p.id)
      if pointsToDelete.length > 0 then .ok (qdrantDeletePoints pointsToDelete store)
      else .ok store
    else .error e.message

/-- Two consecutive calls of `deleteByDocumentId` for the same document. -/
def deleteByDocumentIdTwice (hasIndex : Bool) (docId : String) (store : List QPoint) :
    Except String (List QPoint) :=
  match deleteByDocumentId hasIndex docId store with
  | .ok s => deleteByDocumentId hasIndex docId s
  | .error e => .error e

end VectorService

namespace ChatService

/-- Message role in a conversation history. -/
inductive Role where
  | user
  | assistant
deriving Repr, DecidableEq

/-- The string form of a role as interpolated into prompts. -/
def Role.toText : Role → String
  | .user => "user"
  | .assistant => "assistant"

/-- A conversation history message. -/
structure Msg where
  role : Role
  content : String
deriving Repr, DecidableEq

/-- A chunk returned by `vectorService.searchSimilar` as consumed by the
chat service: relevance scores are modelled as rationals. -/
structure RChunk where
  id : String
  content : String
  score : ℚ
  documentId : String
deriving Repr, DecidableEq

/-- A retrieved-chunk preview in the chat response. -/
structure RChunkOut where
  documentId : String
  chunkId : String
  content : String
  score : ℚ
deriving Repr, DecidableEq

/-- The response shape of `ChatService.chat`. -/
structure ChatResponseM where
  content : String
  sources : List String
  retrievedChunks : List RChunkOut
  enhancedQuery : String
deriving Repr, DecidableEq

/-- The contextual prompt built by `ChatService.enhanceQuery`: the user
query plus, when the history is non-empty, the last 6 history messages
(`conversationHistory.slice(-6)`). -/
def buildEnhancePrompt (query : String) (history : List Msg) : String :=
  let base := "Based on the conversation history and user query, enhance and rephrase the query to be more specific and searchable while maintaining the original intent.\n\nUser query: \x22" ++ query ++ "\x22"
  let withHistory :=
    if history.isEmpty then base
    else
      let recentHistory := lastN 6 history
      let historyText :=
        String.intercalate ("\n") (recentHistory.map (fun m => m.role.toText ++ ": " ++ m.content))
      base ++ "\n\nRecent conversation context:\n" ++ historyText
  withHistory ++ "\n\nEnhanced query:"

/-- Embedding of `ChatService.enhanceQuery`: ask the query-enhancer model
(an oracle from the built prompt to a completion or a thrown error) for a
rewrite; normalize multi-shape content and trim it; on any error return the
original query unchanged. -/
def enhanceQuery (enhLLM : String → Except JsError LLMContent) (query : String)
    (history : List Msg) : String :=
  match enhLLM (buildEnhancePrompt query history) with
  | .ok c => jsTrim c.toText
  | .error _ => query

/-- The canned answer returned when retrieval finds zero chunks. -/
def noResultsContent : String :=
  "I couldn\x27t find any relevant information in the uploaded documents to answer your question. Please make sure your query is related to the content you\x27ve shared, or try rephrasing your question."

/-- The labeled source context assembled from the retrieved chunks whose
relevance score is strictly above 0.1; source numbering follows the
filtered list. -/
def relevantContextOf (retrieved : List RChunk) : String :=
  String.intercalate ("\n\n")
    (((retrieved.filter (fun c => decide ((1 : ℚ)/10 < c.score))).enum).map
      (fun p => "[Source " ++ toString (p.1 + 1) ++ "]: " ++ p.2.content))

/-- The system prompt of the answer-generation step, ending in the
assembled source context. -/
def buildSystemPrompt (relevantContext : String) : String :=
  "You are a helpful AI assistant that answers questions based on the provided context from documents. \n\nGuidelines:\n1. Answer questions using ONLY the information provided in the context\n2. If the context doesn\x27t contain enough information to answer fully, acknowledge this limitation\n3. Be specific and cite relevant parts of the context when possible\n4. Provide comprehensive answers when the information is available\n5. If asked about something not in the context, politely explain that you can only answer based on the provided documents\n6. Maintain a helpful and conversational tone\n7. Structure your response clearly with relevant details\n\nContext from documents:\n" ++ relevantContext

/-- The recent-conversation block of the user prompt: empty for an empty
history, otherwise the last 4 history messages
(`conversationHistory.slice(-4)`). -/
def conversationContextOf (history : List Msg) : String :=
  if history.isEmpty then ""
  else
    let recent := lastN 4 history
    let text := String.intercalate ("\n") (recent.map (fun m =>
      (if m.role = Role.user then "Human" else "Assistant") ++ ": " ++ m.content))
    "\n\nRecent conversation:\n" ++ text ++ "\n"

/-- The error classification of the catch block of `ChatService.chat`,
yielding the message of the single re-thrown error. -/
def chatErrorMessage (e : JsError) : String :=
  let statusAndMsg : Option Nat × String :=
    match e.response with
    | some r =>
      (some r.status,
        r.dataErrorMessage.getD (r.dataMessage.getD (r.statusText.getD ("HTTP request failed"))))
    | none =>
      if e.code == some ("ECONNABORTED") || strHasSub e.message ("timeout") then
        (some 408, "Request timeout - please try again")
      else if e.code == some ("ENOTFOUND") || e.code == some ("ECONNREFUSED") then
        (some 503, "Network connection failed")
      else if strHasSub e.message ("API key") then
        (some 401, "Invalid or missing API key")
      else
        (none, if e.message == "" then "Unknown error occurred" else e.message)
  match statusAndMsg with
  | (some n, m) => "Failed to generate response. Reason: HTTP " ++ toString n ++ " - " ++ m
  | (none, m) => "Failed to generate response. Reason: " ++ m

/-- Embedding of `ChatService.chat`. The external collaborators are
oracles: `enhLLM` for the query-enhancer model, `search` for
`vectorService.searchSimilar(enhancedQuery, 8, documentIds)` and `llm` for
the answering model applied to the (system prompt, user prompt) pair;
`apiKeySet` models the presence of `OPENAI_API_KEY`. Any error thrown in
the body is classified by `chatErrorMessage` and re-thrown. -/
def chat (apiKeySet : Bool) (enhLLM : String → Except JsError LLMContent)
    (search : String → Nat → List String → Except JsError (List RChunk))
    (llm : String → String → Except JsError LLMContent)
    (query : String) (documentIds : List String) (history : List Msg) :
    Except String ChatResponseM :=
  let body : Except JsError ChatResponseM :=
    if !apiKeySet then
      .error { message := "Missing OPENAI_API_KEY. Set the environment variable to enable LLM and embeddings." }
    else if query == "" || jsTrim query == "" then
      .error { message := "Query is required and must be a non-empty string" }
    else
      let truncatedQuery := if query.length > 4000 then query.take 4000 ++ "..." else query
      let enhancedQuery := enhanceQuery enhLLM truncatedQuery history
      match search enhancedQuery 8 documentIds with
      | .error e => .error e
      | .ok retrieved =>
        if retrieved.isEmpty then
          .ok { content := noResultsContent
                sources := []
                retrievedChunks := []
                enhancedQuery := enhancedQuery }
        else
          let relevantContext := relevantContextOf retrieved
          let systemPrompt := buildSystemPrompt relevantContext
          let userPrompt := conversationContextOf history ++ "Human: " ++ truncatedQuery ++ "\n\nPlease answer this question based on the provided context."
          match llm systemPrompt userPrompt with
          | .error e => .error e
          | .ok resp =>
            .ok { content := resp.toText
                  sources := dedupFirst (retrieved.map (fun c => c.documentId))
                  retrievedChunks := retrieved.map (fun c =>
                    { documentId := c.documentId
                      chunkId := c.id
                      content := c.content.take 200 ++ "..."
                      score := c.score })
                  enhancedQuery := enhancedQuery }
  match body with
  | .ok r => .ok r
  | .error e => .error (chatErrorMessage e)

end ChatService

namespace DocumentController

/-- Document processing status. -/
inductive DStatus where
  | processing
  | completed
  | failed
deriving Repr, DecidableEq

/-- One observable effect of the background ingestion functions: a status
write to the Document record (`document.save` / `findByIdAndUpdate`), or
the vector-indexing call `vectorService.addChunks` returning
successfully. -/
inductive PEvent where
  | statusWrite (s : DStatus)
  | indexChunks
deriving Repr, DecidableEq

/-- Embedding of `processFileAsync` in `documentController.ts` as its
sequence of observable effects, indexed by whether extraction
(`documentProcessor.processFile`) and indexing (`vectorService.addChunks`)
succeed: on extraction success, the document record is updated to
`completed` and only then are the chunks indexed; if `addChunks` throws,
the shared catch block writes `failed`; on extraction failure, `failed` is
written directly and nothing is indexed. -/
def processFileAsync (extractOk indexOk : Bool) : List PEvent :=
  if extractOk then
    if indexOk then [.statusWrite .completed, .indexChunks]
    else [.statusWrite .completed, .statusWrite .failed]
  else [.statusWrite .failed]

/-- Embedding of `processUrlAsync` in `documentController.ts`: identical
status-write and indexing structure (only the file-cleanup step, which
touches no document state, is absent). -/
def processUrlAsync (extractOk indexOk : Bool) : List PEvent :=
  if extractOk then
    if indexOk then [.statusWrite .completed, .indexChunks]
    else [.statusWrite .completed, .statusWrite .failed]
  else [.statusWrite .failed]

/-- The document statuses written by a sequence of effects, in order. -/
def statusWrites (events : List PEvent) : List DStatus :=
  events.filterMap (fun e => match e with
    | .statusWrite s => some s
    | .indexChunks => none)

/-- The document status sequence observed over a completed file ingestion:
`uploadFiles` first saves the record with status `processing`, then the
background function runs to completion. -/
def fileStatusTrace (extractOk indexOk : Bool) : List DStatus :=
  DStatus.processing :: statusWrites (processFileAsync extractOk indexOk)

/-- The document status sequence observed over a completed URL/YouTube
ingestion (`addUrl` followed by `processUrlAsync`). -/
def urlStatusTrace (extractOk indexOk : Bool) : List DStatus :=
  DStatus.processing :: statusWrites (processUrlAsync extractOk indexOk)

end DocumentController

namespace ChatController

/-- The observable outcome of the `sendMessage` controller on the chat
record: the final message list, whether `chat.save()` was reached, and
whether a success response was sent. -/
structure SendResult where
  messages : List ChatService.Msg
  saved : Bool
  succeeded : Bool
deriving Repr, DecidableEq

/-- Embedding of the `sendMessage` controller in `chatController.ts` around
the answer-generation call: input validation, the generation outcome (the
`Promise.race` of `chatService.chat` and the 45-second timeout rejection,
abstracted as an `Except`), then — only on success — the append of the
user/assistant message pair followed by `chat.save()`. Every error path
(validation failure, chat-service error, timeout) sends an error response
without touching `chat.messages` and without calling `chat.save()`. -/
def sendMessage (userIdPresent : Bool) (message : String)
    (chatMessages : List ChatService.Msg) (targetDocsNonempty : Bool)
    (outcome : Except JsError ChatService.ChatResponseM) : SendResult :=
  if !userIdPresent then
    { messages := chatMessages, saved := false, succeeded := false }
  else if message == "" || jsTrim message == "" then
    { messages := chatMessages, saved := false, succeeded := false }
  else if message.length > 10000 then
    { messages := chatMessages, saved := false, succeeded := false }
  else if !targetDocsNonempty then
    { messages := chatMessages, saved := false, succeeded := false }
  else
    match outcome with
    | .error _ => { messages := chatMessages, saved := false, succeeded := false }
    | .ok r =>
      { messages := chatMessages ++
          [ { role := .user, content := message },
            { role := .assistant, content := r.content } ]
        saved := true
        succeeded := true }

end ChatController

/-! Concrete instances used by counterexamples and witnesses. -/

namespace VectorService

/-- A point of an unrelated document, ranked first. -/
def exX1 : QPoint := { id := "x1", documentId := "X", content := "cx1" }

/-- A point of an unrelated document, ranked second. -/
def exX2 : QPoint := { id := "x2", documentId := "X", content := "cx2" }

/-- A point of an unrelated document, ranked third. -/
def exX3 : QPoint := { id := "x3", documentId := "X", content := "cx3" }

/-- The only point of document `D1`, ranked last. -/
def exD1Point : QPoint := { id := "d1", documentId := "D1", content := "cd1" }

/-- A ranked collection in which three points of another document outrank
the single point of document `D1`. -/
def exRanked : List QPoint := [exX1, exX2, exX3, exD1Point]

/-- A filler point of an unrelated document. -/
def pX : QPoint := { id := "x", documentId := "X", content := "cx" }

/-- The only point of document `D`, stored after 1000 filler points. -/
def pD : QPoint := { id := "pd", documentId := "D", content := "cd" }

/-- The example document id `D`. -/
def docIdD : String := "D"

/-- A collection of 1001 points in which the single point of document `D`
lies beyond the 1000-point scroll batch of the delete fallback. -/
def exBigStore : List QPoint := List.replicate 1000 pX ++ [pD]

end VectorService

namespace DocumentProcessor

/-- A watch-form YouTube URL. -/
def watchUrl : String := "https://www.youtube.com/watch?v=dQw4w9WgXcQ"

/-- A short-form YouTube URL. -/
def shortUrl : String := "https://youtu.be/dQw4w9WgXcQ"

/-- An embed-form YouTube URL. -/
def embedUrl : String := "https://www.youtube.com/embed/dQw4w9WgXcQ"

/-- The 11-character video id of the three example URLs. -/
def exVideoId : String := "dQw4w9WgXcQ"

/-- A YouTube-shaped URL whose id has only 5 characters, so no valid
11-character id can be parsed from it. -/
def badUrl : String := "https://youtu.be/short"

/-- The page scraped by the fallback path in the counterexample. -/
def exPage : YTPage := { pageTitle := "Some page", metaDescription := "a description" }

/-- A trivial boundary-preference function for the spec-modelled splitter. -/
def cutAtChunkSize : List Char → Nat := fun _ => chunkSize

/-- A language-model oracle that always fails. -/
def llmFails : String → Except JsError String := fun _ => .error { message := "boom" }

end DocumentProcessor

namespace ChatService

/-- A retrieved chunk whose relevance score 0.05 is below the 0.1
threshold. -/
def exChunkLow : RChunk :=
  { id := "c1", content := "chunk text", score := 1/20, documentId := "d1" }

/-- A second low-score chunk of the same document. -/
def exChunkLow2 : RChunk :=
  { id := "c2", content := "more chunk text", score := 1/25, documentId := "d1" }

end ChatService

/-! Helper lemmas shared by several claims. -/

/-- Filtering a prefix of a list yields a prefix of the filtered list. -/
theorem filter_take_isPrefixOf_filter {α : Type} (p : α → Bool) :
    ∀ (l : List α) (n : Nat), (l.take n).filter p <+: l.filter p := by
  intro l
  induction l with
  | nil => intro n; simp
  | cons a t ih =>
    intro n
    cases n with
    | zero => simp
    | succ m =>
      simp only [List.take_succ_cons, List.filter_cons]
      cases hpa : p a
      · simpa using ih m
      · obtain ⟨r, hr⟩ := ih m
        exact ⟨r, by simp [← hr]⟩

/-- Taking the same length from two lists in prefix relation preserves the
prefix relation. -/
theorem take_isPrefixOf_take {α : Type} {l₁ l₂ : List α} (h : l₁ <+: l₂) (k : Nat) :
    l₁.take k <+: l₂.take k := by
  obtain ⟨t, rfl⟩ := h
  rw [List.take_append_eq_append_take]
  exact ⟨_, rfl⟩

/-- Dropping the overlap from every chunk of the spec-modelled splitter and
concatenating yields the input with the overlap dropped once. -/
theorem splitTextSpec_flatten_drop (cs ov : Nat) (cut : List Char → Nat) :
    ∀ (n : Nat) (text : List Char), text.length ≤ n →
      ((DocumentProcessor.splitTextSpec cs ov cut text).map (List.drop ov)).flatten =
        text.drop ov := by
  intro n
  induction n with
  | zero =>
    intro text hlen
    rw [DocumentProcessor.splitTextSpec]
    have : text.length ≤ cs ∨ cs ≤ ov := Or.inl (by omega)
    rw [dif_pos this]
    simp
  | succ m ih =>
    intro text hlen
    rw [DocumentProcessor.splitTextSpec]
    by_cases hg : text.length ≤ cs ∨ cs ≤ ov
    · rw [dif_pos hg]; simp
    · rw [dif_neg hg]
      push_neg at hg
      have hc : ov + 1 ≤ min cs (max (cut text) (ov + 1)) :=
        le_min (by omega) (le_max_right _ _)
      set c := min cs (max (cut text) (ov + 1)) with hcdef
      have hcs : c ≤ cs := min_le_left _ _
      have hrec : (text.drop (c - ov)).length ≤ m := by
        simp only [List.length_drop]; omega
      simp only [List.map_cons, List.flatten_cons]
      rw [ih (text.drop (c - ov)) hrec]
      rw [List.drop_take, List.drop_drop]
      have h1 : c - ov + ov = ov + (c - ov) := by omega
      rw [show (c - ov + ov) = (ov + (c - ov)) from h1]
      rw [← List.drop_drop]
      exact List.take_append_drop _ _

/-- Reassembling the chunks of the spec-modelled splitter (dropping the overlap
from each chunk after the first) reconstructs the input text, for any
chunk-size/overlap configuration and any boundary-preference function. -/
theorem reassembleChunks_splitTextSpec (cs ov : Nat) (cut : List Char → Nat)
    (text : List Char) :
    DocumentProcessor.reassembleChunks ov (DocumentProcessor.splitTextSpec cs ov cut text) =
      text := by
  rw [DocumentProcessor.splitTextSpec]
  by_cases hg : text.length ≤ cs ∨ cs ≤ ov
  · rw [dif_pos hg]; simp [DocumentProcessor.reassembleChunks]
  · rw [dif_neg hg]
    push_neg at hg
    have hc : ov + 1 ≤ min cs (max (cut text) (ov + 1)) :=
      le_min (by omega) (le_max_right _ _)
    set c := min cs (max (cut text) (ov + 1)) with hcdef
    simp only [DocumentProcessor.reassembleChunks]
    rw [splitTextSpec_flatten_drop cs ov cut (text.drop (c - ov)).length _ le_rfl]
    rw [List.drop_drop]
    have h1 : c - ov + ov = c := by omega
    rw [h1]
    exact List.take_append_drop _ _

/-! Claim C1: pipeline status monotonicity. -/

/-- C1 counterexample: in `processFileAsync`, when extraction succeeds and
the subsequent `vectorService.addChunks` call throws, the observed status
sequence is `[processing, completed, failed]` — the document transitions
from `completed` to `failed`, and this sequence is none of the three
sequences the claim allows. -/
theorem c1_counterexample :
    DocumentController.fileStatusTrace true false =
      [DocumentController.DStatus.processing, DocumentController.DStatus.completed,
        DocumentController.DStatus.failed] ∧
    DocumentController.fileStatusTrace true false ≠ [DocumentController.DStatus.processing] ∧
    DocumentController.fileStatusTrace true false ≠
      [DocumentController.DStatus.processing, DocumentController.DStatus.completed] ∧
    DocumentController.fileStatusTrace true false ≠
      [DocumentController.DStatus.processing, DocumentController.DStatus.failed] := by
  decide

/-- C1 (amended): over a completed run of a file or URL/YouTube ingestion,
the observed status sequence is exactly one of
`[processing, completed]`, `[processing, failed]` or
`[processing, completed, failed]` — the last occurring when the indexing
call throws after the `completed` write; a `failed` document never becomes
`completed`; and on the success path the chunks are indexed only after the
document has already been marked `completed` (the `completed` write
precedes the `addChunks` call). -/
theorem c1_status_traces :
    (∀ extractOk indexOk : Bool,
      (DocumentController.fileStatusTrace extractOk indexOk =
          [DocumentController.DStatus.processing, DocumentController.DStatus.completed] ∨
        DocumentController.fileStatusTrace extractOk indexOk =
          [DocumentController.DStatus.processing, DocumentController.DStatus.failed] ∨
        DocumentController.fileStatusTrace extractOk indexOk =
          [DocumentController.DStatus.processing, DocumentController.DStatus.completed,
            DocumentController.DStatus.failed]) ∧
      DocumentController.urlStatusTrace extractOk indexOk =
        DocumentController.fileStatusTrace extractOk indexOk) ∧
    DocumentController.processFileAsync true true =
      [DocumentController.PEvent.statusWrite DocumentController.DStatus.completed,
        DocumentController.PEvent.indexChunks] ∧
    DocumentController.processUrlAsync true true =
      [DocumentController.PEvent.statusWrite DocumentController.DStatus.completed,
        DocumentController.PEvent.indexChunks] := by
  decide

/-! Claim C2: chunk reconstruction. -/

/-- C2: for every input text and every boundary-preference function, the
concatenation of the output chunks of the Chunker, after removing the configured
overlap length (150) from each chunk after the first, reconstructs the
input text exactly, at the configured chunk size 800 / overlap 150 of the
`DocumentProcessor` constructor. -/
theorem c2_chunk_reconstruction (cut : List Char → Nat) (text : List Char) :
    DocumentProcessor.reassembleChunks DocumentProcessor.chunkOverlap
      (DocumentProcessor.splitTextSpec DocumentProcessor.chunkSize
        DocumentProcessor.chunkOverlap cut text) = text :=
  reassembleChunks_splitTextSpec _ _ _ _

/-! Claims C3 and C4: the index-missing fallbacks of the vector service. -/

/-- The "Index required" detection of the source fires on the error message
the backing store produces for a filtered request without the payload
index. -/
theorem strHasSub_indexRequired :
    strHasSub VectorService.indexRequiredMessage ("Index required") = true := by
  decide

/-- Membership in a single-element id list is equality with that id. -/
theorem contains_singleton (x d : String) : ([d] : List String).contains x = (x == d) := by
  cases h : x == d <;> simp [List.contains, List.elem, h]

/-- Helper: `deleteByDocumentId` never throws, in either index mode and for
any collection contents, including a second run over its own result. -/
theorem deleteByDocumentId_isOk (hasIndex : Bool) (docId : String)
    (store : List VectorService.QPoint) :
    ∃ s, VectorService.deleteByDocumentId hasIndex docId store = .ok s := by
  cases hasIndex with
  | true => exact ⟨_, rfl⟩
  | false =>
    simp only [VectorService.deleteByDocumentId, VectorService.qdrantDeleteByFilter,
      Bool.false_eq_true, if_false, strHasSub_indexRequired, if_true]
    split
    · exact ⟨_, rfl⟩
    · exact ⟨_, rfl⟩

/-- Helper: a collection with no remaining point of `docId` yields an empty
scoped search result, with and without the payload index. -/
theorem searchSimilar_scoped_empty (s : List VectorService.QPoint) (k : Nat) (docId : String)
    (h : s.filter (fun p => p.documentId == docId) = []) :
    VectorService.searchSimilar true s k [docId] = .ok [] ∧
    VectorService.searchSimilar false s k [docId] = .ok [] := by
  have hpred : ∀ t : List VectorService.QPoint,
      t.filter (fun p => ([docId] : List String).contains p.documentId) =
        t.filter (fun p => p.documentId == docId) := by
    intro t
    exact List.filter_congr (fun p _ => contains_singleton p.documentId docId)
  have h' : ∀ a ∈ s, ¬a.documentId = docId :=
    fun a ha => by simpa using (List.filter_eq_nil_iff.mp h) a ha
  have h'' : ∀ a ∈ s.take (k * 3), ¬a.documentId = docId :=
    fun a ha => h' a (List.mem_of_mem_take ha)
  constructor
  · simp [VectorService.searchSimilar, VectorService.qdrantSearch, hpred, h, h']
    exact Or.inr h'
  · have hfb : (s.take (k * 3)).filter (fun p => p.documentId == docId) = [] := by
      have hpre := filter_take_isPrefixOf_filter
        (fun p => p.documentId == docId) s (k * 3)
      rw [h] at hpre
      exact List.prefix_nil.mp hpre
    simp [VectorService.searchSimilar, VectorService.qdrantSearch,
      strHasSub_indexRequired, hpred, hfb, h'']
    exact Or.inr h''

/-- C3 (amended): against a collection without the `documentId` index, the
search fallback returns only points of the requested document, and its
result is a prefix of (so agrees with, up to possibly returning fewer
points) the result an indexed collection would return truncated to `k`. -/
theorem c3_fallback_scoped_result (ranked : List VectorService.QPoint) (k : Nat)
    (D1 : String) :
    ∃ fb idx : List VectorService.QPoint,
      VectorService.searchSimilar false ranked k [D1] = .ok fb ∧
      VectorService.searchSimilar true ranked k [D1] = .ok idx ∧
      fb.all (fun p => p.documentId == D1) = true ∧
      fb <+: idx := by
  have hfb : VectorService.searchSimilar false ranked k [D1] =
      .ok (((ranked.take (k * 3)).filter
        (fun p => ([D1] : List String).contains p.documentId)).take k) := by
    simp [VectorService.searchSimilar, VectorService.qdrantSearch, strHasSub_indexRequired]
  have hidx : VectorService.searchSimilar true ranked k [D1] =
      .ok ((ranked.filter (fun p => ([D1] : List String).contains p.documentId)).take k) := by
    simp [VectorService.searchSimilar, VectorService.qdrantSearch]
  refine ⟨_, _, hfb, hidx, ?_, ?_⟩
  · rw [List.all_eq_true]
    intro p hp
    have hp1 := List.mem_of_mem_take hp
    have hp2 := (List.mem_filter.mp hp1).2
    rwa [contains_singleton] at hp2
  · exact take_isPrefixOf_take (filter_take_isPrefixOf_filter _ ranked (k * 3)) k

/-- C3 counterexample: with `k = 1` and three points of another document
outranking the single point of document `D1`, the fallback fetches only
`3 * k = 3` candidates, filters them all away and returns the empty list,
while an indexed collection returns the `D1` point — the two results are
not identical (and differ in the returned point set, not merely in
ranking order). -/
theorem c3_counterexample :
    VectorService.searchSimilar false VectorService.exRanked 1 ["D1"] = .ok [] ∧
    VectorService.searchSimilar true VectorService.exRanked 1 ["D1"] =
      .ok [VectorService.exD1Point] ∧
    ([] : List VectorService.QPoint) ≠ [VectorService.exD1Point] := by
  refine ⟨rfl, rfl, by decide⟩

/-- C4 (amended): deleting the vectors of a document never throws, twice in
a row included, whether or not the collection has the `documentId` index
and also when the document has zero vectors; after an indexed (server-side
filtered) delete no point of the document remains and a scoped search
returns zero results; and the same holds for the scroll fallback whenever
the collection fits in its single 1000-point scroll batch (the conjunct is
stated over `store.take 1000`, i.e. exactly the collections of at most 1000
points). -/
theorem c4_delete_idempotent (docId : String) (store : List VectorService.QPoint) (k : Nat) :
    (∃ s, VectorService.deleteByDocumentIdTwice true docId store = .ok s) ∧
    (∃ s, VectorService.deleteByDocumentIdTwice false docId store = .ok s) ∧
    (∃ s, VectorService.deleteByDocumentId true docId store = .ok s ∧
      s.filter (fun p => p.documentId == docId) = [] ∧
      VectorService.searchSimilar true s k [docId] = .ok [] ∧
      VectorService.searchSimilar false s k [docId] = .ok []) ∧
    (∃ s, VectorService.deleteByDocumentId false docId (store.take 1000) = .ok s ∧
      s.filter (fun p => p.documentId == docId) = [] ∧
      VectorService.searchSimilar true s k [docId] = .ok [] ∧
      VectorService.searchSimilar false s k [docId] = .ok []) := by
  refine ⟨⟨_, rfl⟩, ?_, ?_, ?_⟩
  · obtain ⟨s1, h1⟩ := deleteByDocumentId_isOk false docId store
    obtain ⟨s2, h2⟩ := deleteByDocumentId_isOk false docId s1
    exact ⟨s2, by simp [VectorService.deleteByDocumentIdTwice, h1, h2]⟩
  · refine ⟨store.filter (fun p => p.documentId != docId), rfl, ?_⟩
    have hfil : (store.filter (fun p => p.documentId != docId)).filter
        (fun p => p.documentId == docId) = [] := by
      rw [List.filter_eq_nil_iff]
      intro p hp
      have := (List.mem_filter.mp hp).2
      simp only [bne_iff_ne, ne_eq] at this
      simp [this]
    exact ⟨hfil, searchSimilar_scoped_empty _ k docId hfil⟩
  · have htake : (store.take 1000).take 1000 = store.take 1000 := by
      simp [List.take_take]
    by_cases hlen : (((store.take 1000).filter
        (fun p => p.documentId == docId)).map (fun p => p.id)).length > 0
    · refine ⟨(store.take 1000).filter (fun p =>
        !((((store.take 1000).filter (fun q => q.documentId == docId)).map
          (fun q => q.id)).contains p.id)), ?_, ?_⟩
      · simp only [VectorService.deleteByDocumentId, VectorService.qdrantDeleteByFilter,
          Bool.false_eq_true, if_false, strHasSub_indexRequired, if_true,
          VectorService.qdrantScroll, VectorService.qdrantDeletePoints, htake]
        rw [if_pos hlen]
      · have hfil : ((store.take 1000).filter (fun p =>
            !((((store.take 1000).filter (fun q => q.documentId == docId)).map
              (fun q => q.id)).contains p.id))).filter
              (fun p => p.documentId == docId) = [] := by
          rw [List.filter_eq_nil_iff]
          intro p hp hmatch
          obtain ⟨hpmem, hnotdel⟩ := List.mem_filter.mp hp
          have hpin : p ∈ (store.take 1000).filter (fun q => q.documentId == docId) :=
            List.mem_filter.mpr ⟨hpmem, hmatch⟩
          have hidin : p.id ∈ ((store.take 1000).filter
              (fun q => q.documentId == docId)).map (fun q => q.id) :=
            List.mem_map.mpr ⟨p, hpin, rfl⟩
          have hC : ((((store.take 1000).filter (fun q => q.documentId == docId)).map
              (fun q => q.id)).contains p.id) = true := by
            rw [List.contains_eq_any_beq]
            rw [List.any_eq_true]
            exact ⟨p.id, hidin, by simp⟩
          rw [hC] at hnotdel
          simp at hnotdel
        exact ⟨hfil, searchSimilar_scoped_empty _ k docId hfil⟩
    · have hnil : ((store.take 1000).filter (fun p => p.documentId == docId)) = [] := by
        have := Nat.eq_zero_of_not_pos hlen
        rw [List.length_map, List.length_eq_zero] at this
        exact this
      refine ⟨store.take 1000, ?_, hnil, searchSimilar_scoped_empty _ k docId hnil⟩
      simp only [VectorService.deleteByDocumentId, VectorService.qdrantDeleteByFilter,
        Bool.false_eq_true, if_false, strHasSub_indexRequired, if_true,
        VectorService.qdrantScroll, htake, hnil]
      rw [List.map_nil, if_neg (by decide)]

/-- C4 counterexample: a collection of 1001 points without the `documentId`
index, whose single point of document `D` lies beyond the 1000-point scroll
batch. The fallback delete finds nothing to delete and returns the
collection unchanged, so the point of `D` survives and a subsequent scoped
search (here with the index present, as the service re-creates a missing
index during initialization) still returns it. -/
theorem c4_counterexample :
    VectorService.deleteByDocumentId false VectorService.docIdD VectorService.exBigStore =
      .ok VectorService.exBigStore ∧
    VectorService.searchSimilar true VectorService.exBigStore 8 [VectorService.docIdD] =
      .ok [VectorService.pD] ∧
    ([VectorService.pD] : List VectorService.QPoint) ≠ [] := by
  have htake : VectorService.exBigStore.take 1000 = List.replicate 1000 VectorService.pX := by
    rw [VectorService.exBigStore, List.take_left']
    rw [List.length_replicate]
  have hfilrep : (List.replicate 1000 VectorService.pX).filter
      (fun p => p.documentId == VectorService.docIdD) = [] := by
    rw [List.filter_replicate_of_neg]
    decide
  have hfilrep2 : (List.replicate 1000 VectorService.pX).filter
      (fun p => ([VectorService.docIdD] : List String).contains p.documentId) = [] := by
    rw [List.filter_replicate_of_neg]
    decide
  refine ⟨?_, ?_, by decide⟩
  · simp only [VectorService.deleteByDocumentId, VectorService.qdrantDeleteByFilter,
      Bool.false_eq_true, if_false, strHasSub_indexRequired, if_true,
      VectorService.qdrantScroll, htake, hfilrep]
    rw [List.map_nil, if_neg (by decide)]
  · have hidx : VectorService.searchSimilar true VectorService.exBigStore 8
        [VectorService.docIdD] =
        .ok ((VectorService.exBigStore.filter
          (fun p => ([VectorService.docIdD] : List String).contains p.documentId)).take 8) := by
      simp [VectorService.searchSimilar, VectorService.qdrantSearch]
    rw [hidx, VectorService.exBigStore, List.filter_append, hfilrep2]
    rfl

/-! Claim C6: summarizer availability. -/

/-- C6 counterexample: when the language-model call succeeds but returns
the empty string, `generateSummary` passes it through unchanged and the
summary is the empty string, so the all-inputs non-emptiness the claim
states does not hold (length 0 instead of positive). -/
theorem c6_counterexample :
    DocumentProcessor.generateSummary (fun _ => .ok ("")) ("hello") = "" ∧
    (DocumentProcessor.generateSummary (fun _ => .ok ("")) ("hello")).length = 0 := by
  exact ⟨rfl, rfl⟩

/-- C6 (amended): `summarize` never raises (every outcome of the
language-model oracle yields a result); on any language-model error it
returns the 200-character truncation of the original text plus an
ellipsis, which is non-empty for every input; on language-model success it
returns the model text unchanged, so that result is non-empty exactly when
the model returns non-empty text. -/
theorem c6_summary_fallback (e : JsError) (content : String) (s : String) :
    DocumentProcessor.generateSummary (fun _ => .error e) content =
      content.take 200 ++ "..." ∧
    0 < (DocumentProcessor.generateSummary (fun _ => .error e) content).length ∧
    DocumentProcessor.generateSummary (fun _ => .ok s) content = s := by
  refine ⟨rfl, ?_, rfl⟩
  show 0 < (content.take 200 ++ "...").length
  rw [String.length_append]
  have h3 : ("..." : String).length = 3 := rfl
  omega

/-! Claim C7: query enhancer. -/

/-- Length of the JavaScript `slice(-n)` model. -/
theorem lastN_length {α : Type} (n : Nat) (l : List α) :
    (lastN n l).length = min n l.length := by
  simp only [lastN, List.length_drop]
  omega

/-- Taking the last `n` elements twice is the same as taking them once. -/
theorem lastN_lastN {α : Type} (n : Nat) (l : List α) :
    lastN n (lastN n l) = lastN n l := by
  unfold lastN
  rw [List.drop_drop]
  congr 1
  simp only [List.length_drop]
  omega

/-- The enhancement prompt depends on the history only through its last 6
messages. -/
theorem buildEnhancePrompt_lastN (q : String) (h : List ChatService.Msg) :
    ChatService.buildEnhancePrompt q h = ChatService.buildEnhancePrompt q (lastN 6 h) := by
  cases h with
  | nil => rfl
  | cons a t =>
    have hlen : (lastN 6 (a :: t)).length ≠ 0 := by
      rw [lastN_length]
      simp only [List.length_cons]
      omega
    have hem : (lastN 6 (a :: t)).isEmpty = false := by
      rw [List.isEmpty_eq_false]
      intro hc
      rw [hc] at hlen
      exact hlen rfl
    unfold ChatService.buildEnhancePrompt
    rw [List.isEmpty_cons, hem, lastN_lastN]

/-- C7: the query enhancer never fails — on any error of the
language-model oracle it returns the original query unchanged — and its
result depends on the conversation history only through the last 6
messages (3 exchanges), for every oracle. -/
theorem c7_enhance_never_fails :
    (∀ (e : JsError) (q : String) (h : List ChatService.Msg),
      ChatService.enhanceQuery (fun _ => .error e) q h = q) ∧
    (∀ (enhLLM : String → Except JsError LLMContent) (q : String)
      (h : List ChatService.Msg),
      ChatService.enhanceQuery enhLLM q h = ChatService.enhanceQuery enhLLM q (lastN 6 h)) := by
  constructor
  · intro e q h
    rfl
  · intro enhLLM q h
    unfold ChatService.enhanceQuery
    rw [buildEnhancePrompt_lastN]

/-! Claim C8: a failed chat turn leaves the message history untouched. -/

/-- C8: whenever answer generation fails (a chat-service error or the
45-second timeout rejection, both surfacing as an `Except.error` outcome of
the race), `sendMessage` leaves the stored message list unchanged — neither
the user message nor any assistant message is appended — and `chat.save()`
is never called; this holds for every validation configuration. -/
theorem c8_failed_turn_preserves_history (userIdPresent : Bool) (message : String)
    (chatMessages : List ChatService.Msg) (targetDocsNonempty : Bool) (e : JsError) :
    (ChatController.sendMessage userIdPresent message chatMessages targetDocsNonempty
      (.error e)).messages = chatMessages ∧
    (ChatController.sendMessage userIdPresent message chatMessages targetDocsNonempty
      (.error e)).saved = false := by
  unfold ChatController.sendMessage
  split
  · exact ⟨rfl, rfl⟩
  · split
    · exact ⟨rfl, rfl⟩
    · split
      · exact ⟨rfl, rfl⟩
      · split
        · exact ⟨rfl, rfl⟩
        · exact ⟨rfl, rfl⟩

/-! Claims C5 and C10: the retrieval short-circuit of the chat engine. -/

set_option maxRecDepth 4000 in
/-- C5: when the query passes validation and retrieval returns zero chunks,
`chat` returns a successful response whose sources and retrieved chunks are
empty and whose content is the canned, non-empty no-results text — it does
not throw. -/
theorem c5_empty_retrieval (enhLLM : String → Except JsError LLMContent)
    (search : String → Nat → List String → Except JsError (List ChatService.RChunk))
    (llm : String → String → Except JsError LLMContent)
    (query : String) (documentIds : List String) (history : List ChatService.Msg)
    (hq : jsTrim query ≠ "")
    (hsearch : ∀ q, search q 8 documentIds = .ok []) :
    ∃ r, ChatService.chat true enhLLM search llm query documentIds history = .ok r ∧
      r.sources = [] ∧ r.retrievedChunks = [] ∧
      r.content = ChatService.noResultsContent ∧ 0 < r.content.length := by
  have hq2 : (jsTrim query == "") = false := beq_eq_false_iff_ne.mpr hq
  have hq1 : (query == "") = false :=
    beq_eq_false_iff_ne.mpr (fun hqe => hq (by rw [hqe]; decide))
  have heq : ChatService.chat true enhLLM search llm query documentIds history =
      .ok { content := ChatService.noResultsContent
            sources := []
            retrievedChunks := []
            enhancedQuery := ChatService.enhanceQuery enhLLM
              (if query.length > 4000 then query.take 4000 ++ "..." else query) history } := by
    simp only [ChatService.chat, Bool.not_true, Bool.false_eq_true, if_false, hq1, hq2,
      Bool.or_self, hsearch, List.isEmpty_nil, if_true]
  exact ⟨_, heq, rfl, rfl, rfl, show 0 < ChatService.noResultsContent.length by decide⟩

/-- C5 witness: a concrete validated query against a search oracle that
returns zero chunks. -/
theorem c5_witness :
    ∃ r, ChatService.chat true (fun _ => .error { message := "e" })
      (fun _ _ _ => .ok []) (fun _ _ => .error { message := "e" })
      ("hi") [] [] = .ok r ∧
      r.sources = [] ∧ r.retrievedChunks = [] ∧
      r.content = ChatService.noResultsContent ∧ 0 < r.content.length :=
  c5_empty_retrieval _ _ _ ("hi") [] [] (by decide) (fun _ => rfl)

/-- C10: when retrieval returns at least one chunk but every chunk scores
at or below the 0.1 threshold, the canned no-results response is not used:
the source context assembled for the prompt is empty (the filter is a
strict greater-than), the language model is still invoked and its answer is
returned, and the reported sources are the first-occurrence-deduplicated
document ids of all retrieved chunks — in particular non-empty. -/
theorem c10_low_scores_still_invoke_llm (enhLLM : String → Except JsError LLMContent)
    (search : String → Nat → List String → Except JsError (List ChatService.RChunk))
    (llm : String → String → Except JsError LLMContent)
    (query : String) (documentIds : List String) (history : List ChatService.Msg)
    (chunks : List ChatService.RChunk) (t : String)
    (hq : jsTrim query ≠ "")
    (hsearch : ∀ q, search q 8 documentIds = .ok chunks)
    (hne : chunks ≠ [])
    (hscore : ∀ c ∈ chunks, c.score ≤ (1 : ℚ)/10)
    (hllm : ∀ s u, llm s u = .ok (LLMContent.str t)) :
    ChatService.relevantContextOf chunks = "" ∧
    ∃ r, ChatService.chat true enhLLM search llm query documentIds history = .ok r ∧
      r.content = t ∧
      r.sources = dedupFirst (chunks.map (fun c => c.documentId)) ∧
      r.sources ≠ [] := by
  have hfilter : chunks.filter (fun c => decide ((1 : ℚ)/10 < c.score)) = [] := by
    rw [List.filter_eq_nil_iff]
    intro c hc
    simp only [decide_eq_true_eq]
    exact not_lt.mpr (hscore c hc)
  have hctx : ChatService.relevantContextOf chunks = "" := by
    unfold ChatService.relevantContextOf
    rw [hfilter]
    rfl
  have hq2 : (jsTrim query == "") = false := beq_eq_false_iff_ne.mpr hq
  have hq1 : (query == "") = false :=
    beq_eq_false_iff_ne.mpr (fun hqe => hq (by rw [hqe]; decide))
  have hie : chunks.isEmpty = false := by
    rw [List.isEmpty_eq_false]
    exact hne
  have hsne : dedupFirst (chunks.map (fun c => c.documentId)) ≠ [] := by
    obtain ⟨c, cs, hcc⟩ := List.exists_cons_of_ne_nil hne
    subst hcc
    show c.documentId :: dedupFirstAux [c.documentId] (cs.map (fun x => x.documentId)) ≠ []
    exact List.cons_ne_nil _ _
  have heq : ChatService.chat true enhLLM search llm query documentIds history =
      .ok { content := (LLMContent.str t).toText
            sources := dedupFirst (chunks.map (fun c => c.documentId))
            retrievedChunks := chunks.map (fun c =>
              { documentId := c.documentId
                chunkId := c.id
                content := c.content.take 200 ++ "..."
                score := c.score })
            enhancedQuery := ChatService.enhanceQuery enhLLM
              (if query.length > 4000 then query.take 4000 ++ "..." else query) history } := by
    simp only [ChatService.chat, Bool.not_true, Bool.false_eq_true, if_false, hq1, hq2,
      Bool.or_self, hsearch, hie, hllm]
  exact ⟨hctx, _, heq, rfl, rfl, hsne⟩

/-- C10 witness: one retrieved chunk with score 0.05 and a model answering
with a fixed text. -/
theorem c10_witness :
    ChatService.relevantContextOf [ChatService.exChunkLow] = "" ∧
    ∃ r, ChatService.chat true (fun _ => .error { message := "e" })
      (fun _ _ _ => .ok [ChatService.exChunkLow])
      (fun _ _ => .ok (LLMContent.str ("the answer")))
      ("hi") [] [] = .ok r ∧
      r.content = "the answer" ∧
      r.sources = dedupFirst ([ChatService.exChunkLow].map (fun c => c.documentId)) ∧
      r.sources ≠ [] :=
  c10_low_scores_still_invoke_llm _ _ _ ("hi") [] [] [ChatService.exChunkLow]
    ("the answer") (by decide) (fun _ => rfl) (by decide)
    (by intro c hc; cases hc with
      | head => norm_num [ChatService.exChunkLow]
      | tail _ h => cases h)
    (fun _ _ => rfl)

/-! Claim C9: YouTube video-id extraction and invalid-source handling. -/

/-- C9 counterexample: the URL `https://youtu.be/short` yields no valid
11-character id, yet YouTube ingestion does not fail: the catch-all
fallback fetches the page and produces a degraded document
(`hasTranscript = false`, `fallbackContent = true`) instead of an
invalid-source error. -/
theorem c9_counterexample :
    DocumentProcessor.extractYouTubeVideoId DocumentProcessor.badUrl = none ∧
    (DocumentProcessor.processYouTubeURL (.error { message := "captions disabled" })
      (.ok DocumentProcessor.exPage) DocumentProcessor.llmFails
      DocumentProcessor.cutAtChunkSize DocumentProcessor.badUrl).map
      (fun d => (d.hasTranscript, d.fallbackContent)) = .ok (false, true) := by
  exact ⟨rfl, rfl⟩

/-- C9 (amended): the extraction accepts the common watch, short and embed
URL shapes and yields an id only when it has exactly 11 characters; but a
URL with no parseable 11-character id does not necessarily fail ingestion:
the primary path throws `Invalid YouTube URL`, the catch-all fallback then
fetches the page and, when that fetch succeeds, produces a degraded
document (`hasTranscript = false`, `fallbackContent = true`); only when the
fallback fetch also fails does ingestion fail, with error
`Failed to process YouTube video: Invalid YouTube URL`. -/
theorem c9_video_id_extraction :
    DocumentProcessor.extractYouTubeVideoId DocumentProcessor.watchUrl =
      some DocumentProcessor.exVideoId ∧
    DocumentProcessor.extractYouTubeVideoId DocumentProcessor.shortUrl =
      some DocumentProcessor.exVideoId ∧
    DocumentProcessor.extractYouTubeVideoId DocumentProcessor.embedUrl =
      some DocumentProcessor.exVideoId ∧
    (∀ (url s : String), DocumentProcessor.extractYouTubeVideoId url = some s →
      s.length = 11) ∧
    (∀ (url : String) (le : JsError) (page : DocumentProcessor.YTPage)
      (llm : String → Except JsError String) (cut : List Char → Nat),
      DocumentProcessor.extractYouTubeVideoId url = none →
      (DocumentProcessor.processYouTubeURL (.error le) (.ok page) llm cut url).map
        (fun d => (d.hasTranscript, d.fallbackContent)) = .ok (false, true)) ∧
    (∀ (url : String) (le pe : JsError) (llm : String → Except JsError String)
      (cut : List Char → Nat),
      DocumentProcessor.extractYouTubeVideoId url = none →
      DocumentProcessor.processYouTubeURL (.error le) (.error pe) llm cut url =
        .error ("Failed to process YouTube video: Invalid YouTube URL")) := by
  refine ⟨rfl, rfl, rfl, ?_, ?_, ?_⟩
  · intro url s hs
    rw [DocumentProcessor.extractYouTubeVideoId] at hs
    rcases hrest : DocumentProcessor.restAfterLastMarker url.data with _ | rest
    · rw [hrest] at hs
      exact absurd hs (by simp)
    · rw [hrest] at hs
      simp only at hs
      split at hs
      · rename_i hlen
        cases hs
        exact hlen
      · exact absurd hs (by simp)
  · intro url le page llm cut hnone
    unfold DocumentProcessor.processYouTubeURL
    rw [hnone]
    rfl
  · intro url le pe llm cut hnone
    unfold DocumentProcessor.processYouTubeURL
    rw [hnone]
    rfl

/-- C9 witness: the three URL shapes at a concrete id, the 11-character
guarantee applied to the watch URL, and the two fallback behaviors at the
concrete unparseable URL. -/
theorem c9_witness :
    DocumentProcessor.exVideoId.length = 11 ∧
    (DocumentProcessor.processYouTubeURL (.error { message := "x" })
      (.ok DocumentProcessor.exPage) DocumentProcessor.llmFails
      DocumentProcessor.cutAtChunkSize DocumentProcessor.badUrl).map
      (fun d => (d.hasTranscript, d.fallbackContent)) = .ok (false, true) ∧
    DocumentProcessor.processYouTubeURL (.error { message := "x" })
      (.error { message := "y" }) DocumentProcessor.llmFails
      DocumentProcessor.cutAtChunkSize DocumentProcessor.badUrl =
      .error ("Failed to process YouTube video: Invalid YouTube URL") :=
  ⟨c9_video_id_extraction.2.2.2.1 DocumentProcessor.watchUrl DocumentProcessor.exVideoId
      c9_video_id_extraction.1,
    c9_video_id_extraction.2.2.2.2.1 DocumentProcessor.badUrl { message := "x" }
      DocumentProcessor.exPage DocumentProcessor.llmFails
      DocumentProcessor.cutAtChunkSize rfl,
    c9_video_id_extraction.2.2.2.2.2 DocumentProcessor.badUrl { message := "x" }
      { message := "y" } DocumentProcessor.llmFails
      DocumentProcessor.cutAtChunkSize rfl⟩

end DocuMind
